import Mathlib

/-!
# OpenGLTutorial-Part3: a call-trace model of `OpenGLTutorial/main.cpp`

The program is a straight-line script of calls into GLFW, GLEW, OpenGL and `printf`,
followed by one `while` loop.  The embedding keeps

* the four globals `VAO`, `VBO`, `shader`, `uniformModel` (all `GLuint`),
* the selection state of the graphics context the program touches (vertex-array binding,
  array-buffer binding, program in use),
* the ordered trace of every external call with its arguments,

in one `World` record that is threaded through the functions of the source.  Everything an
external call hands back (return values and out-parameters) is read from a `Driver` record, so
every theorem quantified over `Driver` speaks about every behaviour of the collaborators.

Numeric conventions: `GLuint`, `GLenum`, `GLsizei` and pointers are `Nat` (a null pointer is
`0`), `GLint` and `int` are `Int`.  A `GLfloat` is an IEEE 754 binary32 number, represented by
the rational number that is its exact value: a literal such as `0.4f` is the decimal rounded
to binary32 (`f32`), and a product of two floats is the exact product rounded to binary32
(`fmul`).
-/

namespace OpenGLTutorial

/-! ## Constants taken from the OpenGL, GLFW and GLEW headers -/

def GL_FALSE : Nat := 0

def GL_TRUE : Nat := 1

def GL_TRIANGLES : Nat := 0x0004

def GL_FLOAT : Nat := 0x1406

def GL_COLOR_BUFFER_BIT : Nat := 0x4000

def GL_ARRAY_BUFFER : Nat := 0x8892

def GL_STATIC_DRAW : Nat := 0x88E4

def GL_FRAGMENT_SHADER : Nat := 0x8B30

def GL_VERTEX_SHADER : Nat := 0x8B31

def GL_COMPILE_STATUS : Nat := 0x8B81

def GL_LINK_STATUS : Nat := 0x8B82

def GL_VALIDATE_STATUS : Nat := 0x8B83

def GLFW_CONTEXT_VERSION_MAJOR : Nat := 0x00022002

def GLFW_CONTEXT_VERSION_MINOR : Nat := 0x00022003

def GLFW_OPENGL_FORWARD_COMPAT : Nat := 0x00022006

def GLFW_OPENGL_PROFILE : Nat := 0x00022008

def GLFW_OPENGL_CORE_PROFILE : Nat := 0x00032001

def GLEW_OK : Nat := 0

/-- Size in bytes of one `GLfloat`. -/
def sizeofGLfloat : Nat := 4

/-! ## Constants of `main.cpp` -/

/-- Window width (`const GLint WIDTH = 800`). -/
def WIDTH : Int := 800

/-- Window height (`const GLint HEIGHT = 600`). -/
def HEIGHT : Int := 600

/-- Vertex shader source, the C string literal `vShader` character for character. -/
def vShader : String := String.join [
  "\t\t\t\t\t\t\t\t\t\t\t\n",
  "#version 330\t\t\t\t\t\t\t\t\t\t\t\t\t\t\t\n",
  "\t\t\t\t\t\t\t\t\t\t\t\t\t\t\t\t\t\t\n",
  "// create a layout in location \x270\x27 what will take\t\t\t\t\t\t\n",
  "// a vector of size 3 as an input what we\x27ll call\t\t\t\t\t\t\n",
  "// \x27pos\x27. If we don\x27t define the location, it will\t\t\t\t\t\t\n",
  "// be automatically generated and so we have to\t\t\t\t\t\t\t\n",
  "// query it later\t\t\t\t\t\t\t\t\t\t\t\t\t\t\n",
  "layout(location = 0) in vec3 pos;\t\t\t\t\t\t\t\t\t\t\n",
  "\t\t\t\t\t\t\t\t\t\t\t\t\t\t\t\t\t\t\n",
  "out vec4 vCol;\t\t\t\t\t\t\t\t\t\t\t\t\t\t\t\n",
  "\t\t\t\t\t\t\t\t\t\t\t\t\t\t\t\t\t\t\n",
  "uniform mat4 model;\t\t\t\t\t\t\t\t\t\t\t\t\t\t\n",
  "\t\t\t\t\t\t\t\t\t\t\t\t\t\t\t\t\t\t\n",
  "void main()\t\t\t\t\t\t\t\t\t\t\t\t\t\t\t\t\n",
  "\x7b\t\t\t\t\t\t\t\t\t\t\t\t\t\t\t\t\t\t\n",
  "// \x27gl-Position\x27 is a size 4 vector object\t\t\t\t\t\t\t\t\n",
  "// that already exists. In this case, we\x27re\t\t\t\t\t\t\t\t\n",
  "// assigning it to a new vector with the\t\t\t\t\t\t\t\t\n",
  "// x, y, z position we took as input and then passing\t\t\t\t\t\n",
  "// \x271\x27 as the extra variable since out input is of\t\t\t\t\t\t\n",
  "// size 3. Also we\x27re scaling the output by 0.4\t\t\t\t\t\t\t\n",
  "\tgl_Position = model * vec4(pos, 1.0);\t\t\t\t\t\t\t\t\n",
  "// \x27clamp\x27 will map the negatives values that are outside \t\t\t\t\n",
  "// \x270.0\x27 and \x271.0\x27 range and map them into that range\t\t\t\t\t\n",
  "\tvCol = vec4(clamp(pos, 0.0f, 1.0f), 1.0f);\t\t\t\t\t\t\t\n",
  "\x7d"]

/-- Fragment shader source, the C string literal `fShader` character for character. -/
def fShader : String := String.join [
  "\t\t\t\t\t\t\t\t\n",
  "#version 330\t\t\t\t\t\t\t\t\t\t\t\t\n",
  "\t\t\t\t\t\t\t\t\t\t\t\t\t\t\t\n",
  "// Fragment shader only has one output. So in this\t\t\t\n",
  "// case we\x27re outputting the color as a 4 size vector\t\t\n",
  "// that will represent R, G, B, A\t\t\t\t\t\t\t\n",
  "\t\t\t\t\t\t\t\t\t\t\t\t\t\t\t\n",
  "in vec4 vCol;\t\t\t\t\t\t\t\t\t\t\t\t\n",
  "out vec4 colour;\t\t\t\t\t\t\t\t\t\t\t\n",
  "\t\t\t\t\t\t\t\t\t\t\t\t\t\t\t\n",
  "void main()\t\t\t\t\t\t\t\t\t\t\t\t\t\n",
  "\x7b\t\t\t\t\t\t\t\t\t\t\t\t\t\t\t\n",
  "\tcolour = vCol;\t\t\t\t\t\t\t\t\t\t\t\n",
  "\x7d"]

/-! ## Conversions between `GLint` and `GLuint` -/

/-- Conversion of a signed value to `GLuint` (reduction modulo `2^32`), as performed by the
assignment `uniformModel = glGetUniformLocation(...)`. -/
def toGLuint (i : Int) : Nat := (i % 2 ^ 32).toNat

/-- Conversion of a `GLuint` to `GLint` (two's complement), as performed when `uniformModel`
is passed as the `GLint location` parameter of `glUniformMatrix4fv`. -/
def toGLint (u : Nat) : Int :=
  if u % 2 ^ 32 < 2 ^ 31 then ((u % 2 ^ 32 : Nat) : Int) else ((u % 2 ^ 32 : Nat) : Int) - 2 ^ 32

/-! ## `GLfloat`: IEEE 754 binary32 -/

/-- A finite binary32 number, given by the rational number that is its exact value.  Infinities,
NaN and the sign of zero have no counterpart; the program computes none of them. -/
abbrev GLfloat := ℚ

/-- Helper of `floorLog2`, with fuel. -/
def floorLog2Aux : Nat → Nat → Nat
  | 0, _ => 0
  | fuel + 1, n => if 2 ≤ n then floorLog2Aux fuel (n / 2) + 1 else 0

/-- The position of the leading binary digit of `n`: the `k` with `2^k ≤ n < 2^(k+1)`
for `n > 0`. -/
def floorLog2 (n : Nat) : Nat := floorLog2Aux n n

/-- The rational `2^e`. -/
def pow2 (e : Int) : ℚ :=
  if 0 ≤ e then ((2 ^ e.toNat : Nat) : ℚ) else 1 / ((2 ^ (-e).toNat : Nat) : ℚ)

/-- The binary exponent of a positive rational `a`: the `e` with `2^e ≤ a < 2^(e+1)`.  The
difference of the leading-digit positions of numerator and denominator is `e` or `e + 1`. -/
def binaryExponent (a : ℚ) : Int :=
  let e0 : Int := (floorLog2 a.num.natAbs : Int) - (floorLog2 a.den : Int)
  if a < pow2 e0 then e0 - 1 else e0

/-- The nearest integer, a tie going to the even one. -/
def roundHalfEven (q : ℚ) : Int :=
  let f := Rat.floor q
  let r := q - (f : ℚ)
  if r < 1 / 2 then f else if 1 / 2 < r then f + 1 else if f % 2 = 0 then f else f + 1

/-- Rounding of a real (here: rational) number to binary32, round-to-nearest-even: the number
is rounded to a multiple of the unit in the last place of its binade, `2^(e - 23)`, where the
exponent `e` is at least `-126` (gradual underflow).  Overflow to infinity is not modelled. -/
def roundF32 (q : ℚ) : GLfloat :=
  if q = 0 then 0
  else
    let a := if q < 0 then -q else q
    let e := max (binaryExponent a) (-126)
    let ulp := pow2 (e - 23)
    (roundHalfEven (q / ulp) : ℚ) * ulp

/-- The value of a floating literal with suffix `f`, such as `0.4f`: the decimal rounded to
binary32. -/
def f32 (decimal : ℚ) : GLfloat := roundF32 decimal

/-- The product `a * b` of two floats: the exact product rounded to binary32. -/
def fmul (a b : GLfloat) : GLfloat := roundF32 (a * b)

/-! ## The part of glm the frame uses -/

structure Vec3 where
  x : GLfloat
  y : GLfloat
  z : GLfloat
  deriving DecidableEq, Repr

structure Vec4 where
  x : GLfloat
  y : GLfloat
  z : GLfloat
  w : GLfloat
  deriving DecidableEq, Repr

/-- A 4x4 matrix stored by columns, as `glm::mat4` is. -/
structure Mat4 where
  c0 : Vec4
  c1 : Vec4
  c2 : Vec4
  c3 : Vec4
  deriving DecidableEq, Repr

/-- The matrix with the given diagonal and zeros elsewhere. -/
def diag (a b c d : GLfloat) : Mat4 :=
  ⟨⟨a, 0, 0, 0⟩, ⟨0, b, 0, 0⟩, ⟨0, 0, c, 0⟩, ⟨0, 0, 0, d⟩⟩

/-- The constructor `glm::mat4(s)`: `s` on the diagonal. -/
def mat4 (s : GLfloat) : Mat4 := diag s s s s

/-- Column times scalar, `v * s`. -/
def Vec4.mulScalar (v : Vec4) (s : GLfloat) : Vec4 :=
  ⟨fmul v.x s, fmul v.y s, fmul v.z s, fmul v.w s⟩

/-- The function `glm::scale(m, v)`: the first three columns of `m` are multiplied by the
components of `v`, the fourth column is kept. -/
def scale (m : Mat4) (v : Vec3) : Mat4 :=
  ⟨m.c0.mulScalar v.x, m.c1.mulScalar v.y, m.c2.mulScalar v.z, m.c3⟩

/-- The function `glm::value_ptr`: the sixteen entries in memory (column-major) order. -/
def value_ptr (m : Mat4) : List GLfloat :=
  [m.c0.x, m.c0.y, m.c0.z, m.c0.w, m.c1.x, m.c1.y, m.c1.z, m.c1.w,
   m.c2.x, m.c2.y, m.c2.z, m.c2.w, m.c3.x, m.c3.y, m.c3.z, m.c3.w]

/-! ## External calls and the world they act on -/

/-- One variadic argument of a `printf` call. -/
inductive PrintfArg where
  | int (v : Int)
  | str (s : String)
  deriving DecidableEq, Repr

/-- One call into GLFW, GLEW, OpenGL or the C library, with the arguments the source passes.
Out-parameters and return values are not part of the event; they come from the `Driver`. -/
inductive Event where
  | glfwInit
  | glfwTerminate
  | glfwWindowHint (hint value : Nat)
  | glfwCreateWindow (width height : Int) (title : String) (monitor share : Nat)
  | glfwGetFramebufferSize (window : Nat)
  | glfwMakeContextCurrent (window : Nat)
  | glewInit
  | glfwDestroyWindow (window : Nat)
  | glfwWindowShouldClose (window : Nat)
  | glfwPollEvents
  | glfwSwapBuffers (window : Nat)
  | glViewport (x y width height : Int)
  | glGenVertexArrays (n : Nat)
  | glBindVertexArray (array : Nat)
  | glGenBuffers (n : Nat)
  | glBindBuffer (target buffer : Nat)
  | glBufferData (target size : Nat) (data : List GLfloat) (usage : Nat)
  | glVertexAttribPointer (index : Nat) (size : Int) (type normalized stride pointer : Nat)
  | glEnableVertexAttribArray (index : Nat)
  | glCreateShader (shaderType : Nat)
  | glShaderSource (shader count : Nat) (code : List String) (length : List Int)
  | glCompileShader (shader : Nat)
  | glGetShaderiv (shader pname : Nat)
  | glGetShaderInfoLog (shader bufSize : Nat)
  | glAttachShader (program shader : Nat)
  | glCreateProgram
  | glLinkProgram (program : Nat)
  | glGetProgramiv (program pname : Nat)
  | glGetProgramInfoLog (program bufSize : Nat)
  | glValidateProgram (program : Nat)
  | glGetUniformLocation (program : Nat) (name : String)
  | glClearColor (red green blue alpha : GLfloat)
  | glClear (mask : Nat)
  | glUseProgram (program : Nat)
  | glUniformMatrix4fv (location : Int) (count transpose : Nat) (value : List GLfloat)
  | glDrawArrays (mode : Nat) (first : Int) (count : Nat)
  | printf (format : String) (args : List PrintfArg)
  deriving DecidableEq, Repr

/-- Globals of `main.cpp`, the selection state of the graphics context, and the trace of the
external calls made so far (oldest first). -/
structure World where
  VAO : Nat
  VBO : Nat
  shader : Nat
  uniformModel : Nat
  glewExperimental : Nat
  vertexArrayBinding : Nat
  arrayBufferBinding : Nat
  currentProgram : Nat
  trace : List Event
  deriving DecidableEq, Repr

/-- State at program start: the globals are zero-initialised (static storage), nothing is
bound, nothing has been called. -/
def World.init : World :=
  { VAO := 0, VBO := 0, shader := 0, uniformModel := 0, glewExperimental := 0,
    vertexArrayBinding := 0, arrayBufferBinding := 0, currentProgram := 0, trace := [] }

/-- Record one external call. -/
def World.call (w : World) (e : Event) : World := { w with trace := w.trace ++ [e] }

/-- What the driver hands back during one `AddShader` call. -/
structure ShaderReply where
  /-- return value of `glCreateShader` -/
  shaderId : Nat
  /-- value `glGetShaderiv(.., GL_COMPILE_STATUS, &result)` stores in `result` -/
  compileStatus : Int
  /-- text `glGetShaderInfoLog` stores in `eLog` -/
  infoLog : String

/-- Everything the collaborators hand back in one run of the program. -/
structure Driver where
  /-- return value of `glfwInit()` -/
  glfwInit : Int
  /-- return value of `glfwCreateWindow`, `0` for a null pointer -/
  glfwCreateWindow : Nat
  /-- width stored by `glfwGetFramebufferSize` -/
  bufferWidth : Int
  /-- height stored by `glfwGetFramebufferSize` -/
  bufferHeight : Int
  /-- return value of `glewInit()` -/
  glewInit : Nat
  /-- name stored by `glGenVertexArrays(1, &VAO)` -/
  glGenVertexArrays : Nat
  /-- name stored by `glGenBuffers(1, &VBO)` -/
  glGenBuffers : Nat
  /-- return value of `glCreateProgram()` -/
  glCreateProgram : Nat
  /-- replies during `AddShader(shader, vShader, GL_VERTEX_SHADER)` -/
  vertexShader : ShaderReply
  /-- replies during `AddShader(shader, fShader, GL_FRAGMENT_SHADER)` -/
  fragmentShader : ShaderReply
  /-- value stored by `glGetProgramiv(shader, GL_LINK_STATUS, &result)` -/
  linkStatus : Int
  /-- text stored by `glGetProgramInfoLog` after a failed link -/
  linkLog : String
  /-- value stored by `glGetProgramiv(shader, GL_VALIDATE_STATUS, &result)` -/
  validateStatus : Int
  /-- text stored by `glGetProgramInfoLog` after a failed validation -/
  validateLog : String
  /-- return value of `glGetUniformLocation(shader, "model")` -/
  glGetUniformLocation : Int
  /-- return value of the `k`-th call (from 0) of `glfwWindowShouldClose(mainWindow)` -/
  glfwWindowShouldClose : Nat → Int

/-! ## Effect of the binding calls on the context -/

/-- The call `glBindVertexArray(array)`. -/
def glBindVertexArray (array : Nat) (w : World) : World :=
  { w.call (.glBindVertexArray array) with vertexArrayBinding := array }

/-- The call `glBindBuffer(target, buffer)`; the model tracks the `GL_ARRAY_BUFFER` target. -/
def glBindBuffer (target buffer : Nat) (w : World) : World :=
  if target = GL_ARRAY_BUFFER then
    { w.call (.glBindBuffer target buffer) with arrayBufferBinding := buffer }
  else
    w.call (.glBindBuffer target buffer)

/-- The call `glUseProgram(program)`. -/
def glUseProgram (program : Nat) (w : World) : World :=
  { w.call (.glUseProgram program) with currentProgram := program }

/-! ## The functions of `main.cpp` -/

/-- The array `vertices` of `CreateTriangle`. -/
def vertices : List GLfloat :=
  [-f32 1.0, -f32 1.0, f32 0.0,
   f32 1.0, -f32 1.0, f32 0.0,
   f32 0.0, f32 1.0, f32 0.0]

/-- The function `CreateTriangle()`. -/
def CreateTriangle (d : Driver) (w : World) : World :=
  let w := { w.call (.glGenVertexArrays 1) with VAO := d.glGenVertexArrays }
  let w := glBindVertexArray w.VAO w
  let w := { w.call (.glGenBuffers 1) with VBO := d.glGenBuffers }
  let w := glBindBuffer GL_ARRAY_BUFFER w.VBO w
  let w := w.call (.glBufferData GL_ARRAY_BUFFER (sizeofGLfloat * vertices.length) vertices
    GL_STATIC_DRAW)
  let w := w.call (.glVertexAttribPointer 0 3 GL_FLOAT GL_FALSE 0 0)
  let w := w.call (.glEnableVertexAttribArray 0)
  let w := glBindBuffer GL_ARRAY_BUFFER 0 w
  glBindVertexArray 0 w

/-- The function `AddShader(theProgram, shaderCode, shaderType)`; `r` holds the driver's replies
during this call. -/
def AddShader (r : ShaderReply) (theProgram : Nat) (shaderCode : String) (shaderType : Nat)
    (w : World) : World :=
  let theShader := r.shaderId
  let w := w.call (.glCreateShader shaderType)
  let theCode : List String := [shaderCode]
  let codeLength : List Int := [(shaderCode.utf8ByteSize : Int)]
  let w := w.call (.glShaderSource theShader 1 theCode codeLength)
  let w := w.call (.glCompileShader theShader)
  let w := w.call (.glGetShaderiv theShader GL_COMPILE_STATUS)
  let result : Int := r.compileStatus
  if result = 0 then
    let w := w.call (.glGetShaderInfoLog theShader 1024)
    let eLog := r.infoLog
    w.call (.printf "Error compiling the %d shader: '%s'\n" [.int shaderType, .str eLog])
  else
    w.call (.glAttachShader theProgram theShader)

/-- The function `CompileShaders()`. -/
def CompileShaders (d : Driver) (w : World) : World :=
  let w := { w.call .glCreateProgram with shader := d.glCreateProgram }
  if w.shader = 0 then
    w.call (.printf "Error creating shader program!\n" [])
  else
    let w := AddShader d.vertexShader w.shader vShader GL_VERTEX_SHADER w
    let w := AddShader d.fragmentShader w.shader fShader GL_FRAGMENT_SHADER w
    let w := w.call (.glLinkProgram w.shader)
    let w := w.call (.glGetProgramiv w.shader GL_LINK_STATUS)
    let result : Int := d.linkStatus
    if result = 0 then
      let w := w.call (.glGetProgramInfoLog w.shader 1024)
      w.call (.printf "Error linking program: '%s'\n" [.str d.linkLog])
    else
      let w := w.call (.glValidateProgram w.shader)
      let w := w.call (.glGetProgramiv w.shader GL_VALIDATE_STATUS)
      let result : Int := d.validateStatus
      if result = 0 then
        let w := w.call (.glGetProgramInfoLog w.shader 1024)
        w.call (.printf "Error validating program: '%s'\n" [.str d.validateLog])
      else
        let w := w.call (.glGetUniformLocation w.shader "model")
        { w with uniformModel := toGLuint d.glGetUniformLocation }

/-- Body of the `while` loop of `main`: one frame. -/
def frame (mainWindow : Nat) (w : World) : World :=
  let w := w.call .glfwPollEvents
  let w := w.call (.glClearColor (f32 0.0) (f32 0.0) (f32 0.0) (f32 1.0))
  let w := w.call (.glClear GL_COLOR_BUFFER_BIT)
  let w := glUseProgram w.shader w
  let model : Mat4 := mat4 (f32 1.0)
  let model : Mat4 := scale model ⟨f32 0.4, f32 0.4, f32 1.0⟩
  let w := w.call (.glUniformMatrix4fv (toGLint w.uniformModel) 1 GL_FALSE (value_ptr model))
  let w := glBindVertexArray w.VAO w
  let w := w.call (.glDrawArrays GL_TRIANGLES 0 3)
  let w := glBindVertexArray 0 w
  let w := glUseProgram 0 w
  w.call (.glfwSwapBuffers mainWindow)

/-- The loop `while (!glfwWindowShouldClose(mainWindow)) { frame }`; `k` counts the queries of
the close flag made so far.  `none` when `fuel` iterations were not enough to leave the
loop. -/
def frameLoop (d : Driver) (mainWindow : Nat) : Nat → Nat → World → Option World
  | 0, _, _ => none
  | fuel + 1, k, w =>
    let w := w.call (.glfwWindowShouldClose mainWindow)
    if d.glfwWindowShouldClose k = 0 then
      frameLoop d mainWindow fuel (k + 1) (frame mainWindow w)
    else
      some w

/-- The function `main()`: exit code and final world, `none` when the loop did not finish
within `fuel` checks of the close flag. -/
def main (d : Driver) (fuel : Nat) : Option (Int × World) :=
  let w := World.init
  let w := w.call .glfwInit
  if d.glfwInit = 0 then
    let w := w.call (.printf "GLFW initialization failed" [])
    let w := w.call .glfwTerminate
    some (1, w)
  else
    let w := w.call (.glfwWindowHint GLFW_CONTEXT_VERSION_MAJOR 3)
    let w := w.call (.glfwWindowHint GLFW_CONTEXT_VERSION_MINOR 3)
    let w := w.call (.glfwWindowHint GLFW_OPENGL_PROFILE GLFW_OPENGL_CORE_PROFILE)
    let w := w.call (.glfwWindowHint GLFW_OPENGL_FORWARD_COMPAT GL_TRUE)
    let w := w.call (.glfwCreateWindow WIDTH HEIGHT "Test Window" 0 0)
    let mainWindow := d.glfwCreateWindow
    if mainWindow = 0 then
      let w := w.call (.printf "GLFW window creation failed!" [])
      let w := w.call .glfwTerminate
      some (1, w)
    else
      let w := w.call (.glfwGetFramebufferSize mainWindow)
      let bufferWidth := d.bufferWidth
      let bufferHeight := d.bufferHeight
      let w := w.call (.glfwMakeContextCurrent mainWindow)
      let w := { w with glewExperimental := GL_TRUE }
      let w := w.call .glewInit
      let w :=
        if d.glewInit ≠ GLEW_OK then
          let w := w.call (.printf "GLEW initialization failed!" [])
          let w := w.call (.glfwDestroyWindow mainWindow)
          w.call .glfwTerminate
        else
          w
      let w := w.call (.glViewport 0 0 bufferWidth bufferHeight)
      let w := CreateTriangle d w
      let w := CompileShaders d w
      (frameLoop d mainWindow fuel 0 w).map (fun w => (0, w))

/-! ## Observations on traces -/

/-- The calls made between world `w` and the later world `w'`. -/
def newEvents (w w' : World) : List Event := w'.trace.drop w.trace.length

/-- The `(program, shader)` pairs of the `glAttachShader` calls of a trace, in order. -/
def attachments : List Event → List (Nat × Nat)
  | [] => []
  | .glAttachShader p s :: es => (p, s) :: attachments es
  | _ :: es => attachments es

/-- The `(program, name)` pairs of the `glGetUniformLocation` calls of a trace, in order. -/
def uniformQueries : List Event → List (Nat × String)
  | [] => []
  | .glGetUniformLocation p n :: es => (p, n) :: uniformQueries es
  | _ :: es => uniformQueries es

/-- The `(mode, first, count)` triples of the `glDrawArrays` calls of a trace, in order. -/
def drawCalls : List Event → List (Nat × Int × Nat)
  | [] => []
  | .glDrawArrays m f c :: es => (m, f, c) :: drawCalls es
  | _ :: es => drawCalls es

/-- The `location` arguments of the `glUniformMatrix4fv` calls of a trace, in order. -/
def uploadLocations : List Event → List Int
  | [] => []
  | .glUniformMatrix4fv l _ _ _ :: es => l :: uploadLocations es
  | _ :: es => uploadLocations es

/-- The arguments of the `glUseProgram` calls of a trace, in order. -/
def programUses : List Event → List Nat
  | [] => []
  | .glUseProgram p :: es => p :: programUses es
  | _ :: es => programUses es

/-- Number of `glfwSwapBuffers` calls of a trace. -/
def swapCount : List Event → Nat
  | [] => 0
  | .glfwSwapBuffers _ :: es => swapCount es + 1
  | _ :: es => swapCount es

/-- Number of `glfwWindowShouldClose` calls of a trace. -/
def closeQueryCount : List Event → Nat
  | [] => 0
  | .glfwWindowShouldClose _ :: es => closeQueryCount es + 1
  | _ :: es => closeQueryCount es

/-- The calls every `AddShader` makes before it looks at the compile status. -/
def compileCalls (theShader : Nat) (shaderCode : String) (shaderType : Nat) : List Event :=
  [.glCreateShader shaderType,
   .glShaderSource theShader 1 [shaderCode] [(shaderCode.utf8ByteSize : Int)],
   .glCompileShader theShader,
   .glGetShaderiv theShader GL_COMPILE_STATUS]

/-- The calls of one frame, from the values of `mainWindow`, `shader`, `uniformModel`
and `VAO`. -/
def frameCalls (mainWindow shader uniformModel VAO : Nat) : List Event :=
  [.glfwPollEvents,
   .glClearColor 0 0 0 1,
   .glClear GL_COLOR_BUFFER_BIT,
   .glUseProgram shader,
   .glUniformMatrix4fv (toGLint uniformModel) 1 GL_FALSE (value_ptr (diag (f32 0.4) (f32 0.4) 1 1)),
   .glBindVertexArray VAO,
   .glDrawArrays GL_TRIANGLES 0 3,
   .glBindVertexArray 0,
   .glUseProgram 0,
   .glfwSwapBuffers mainWindow]

/-- The calls of a loop that runs `n` frames and then sees the close flag set: `n` times
the close query followed by a frame, then the last close query. -/
def loopCalls (mainWindow shader uniformModel VAO : Nat) : Nat → List Event
  | 0 => [.glfwWindowShouldClose mainWindow]
  | n + 1 => .glfwWindowShouldClose mainWindow ::
      (frameCalls mainWindow shader uniformModel VAO ++
        loopCalls mainWindow shader uniformModel VAO n)

/-- The calls of `AddShader`, whatever the world it starts from. -/
def addShaderCalls (r : ShaderReply) (theProgram : Nat) (shaderCode : String)
    (shaderType : Nat) : List Event :=
  compileCalls r.shaderId shaderCode shaderType ++
    if r.compileStatus = 0 then
      [.glGetShaderInfoLog r.shaderId 1024,
       .printf "Error compiling the %d shader: '%s'\n" [.int shaderType, .str r.infoLog]]
    else [.glAttachShader theProgram r.shaderId]

/-- The calls of `CompileShaders` after a successful `glCreateProgram`, from the link on. -/
def linkCalls (d : Driver) : List Event :=
  [.glLinkProgram d.glCreateProgram, .glGetProgramiv d.glCreateProgram GL_LINK_STATUS] ++
    if d.linkStatus = 0 then
      [.glGetProgramInfoLog d.glCreateProgram 1024,
       .printf "Error linking program: '%s'\n" [.str d.linkLog]]
    else
      [.glValidateProgram d.glCreateProgram,
       .glGetProgramiv d.glCreateProgram GL_VALIDATE_STATUS] ++
        if d.validateStatus = 0 then
          [.glGetProgramInfoLog d.glCreateProgram 1024,
           .printf "Error validating program: '%s'\n" [.str d.validateLog]]
        else [.glGetUniformLocation d.glCreateProgram "model"]

/-- The calls of `CompileShaders`, whatever the world it starts from. -/
def compileShadersCalls (d : Driver) : List Event :=
  .glCreateProgram ::
    if d.glCreateProgram = 0 then [.printf "Error creating shader program!\n" []]
    else
      addShaderCalls d.vertexShader d.glCreateProgram vShader GL_VERTEX_SHADER ++
        (addShaderCalls d.fragmentShader d.glCreateProgram fShader GL_FRAGMENT_SHADER ++
          linkCalls d)

/-! ## Call traces of the setup and of the loop -/

/-- The calls of `CreateTriangle`, whatever the world it starts from. -/
def createTriangleCalls (d : Driver) : List Event :=
  [.glGenVertexArrays 1,
   .glBindVertexArray d.glGenVertexArrays,
   .glGenBuffers 1,
   .glBindBuffer GL_ARRAY_BUFFER d.glGenBuffers,
   .glBufferData GL_ARRAY_BUFFER 36 [-1, -1, 0, 1, -1, 0, 0, 1, 0] GL_STATIC_DRAW,
   .glVertexAttribPointer 0 3 GL_FLOAT GL_FALSE 0 0,
   .glEnableVertexAttribArray 0,
   .glBindBuffer GL_ARRAY_BUFFER 0,
   .glBindVertexArray 0]

/-- The calls of `main` up to the call of `CreateTriangle`, when `glfwInit` and
`glfwCreateWindow` succeed. -/
def contextCalls (d : Driver) : List Event :=
  [.glfwInit,
   .glfwWindowHint GLFW_CONTEXT_VERSION_MAJOR 3,
   .glfwWindowHint GLFW_CONTEXT_VERSION_MINOR 3,
   .glfwWindowHint GLFW_OPENGL_PROFILE GLFW_OPENGL_CORE_PROFILE,
   .glfwWindowHint GLFW_OPENGL_FORWARD_COMPAT GL_TRUE,
   .glfwCreateWindow 800 600 "Test Window" 0 0,
   .glfwGetFramebufferSize d.glfwCreateWindow,
   .glfwMakeContextCurrent d.glfwCreateWindow,
   .glewInit] ++
  ((if d.glewInit = GLEW_OK then []
    else [.printf "GLEW initialization failed!" [],
          .glfwDestroyWindow d.glfwCreateWindow,
          .glfwTerminate]) ++
   [.glViewport 0 0 d.bufferWidth d.bufferHeight])

/-- The world in which `main` first evaluates the loop condition, when `glfwInit` and
`glfwCreateWindow` succeed. -/
def loopEntry (d : Driver) : World :=
  { VAO := d.glGenVertexArrays
    VBO := d.glGenBuffers
    shader := d.glCreateProgram
    uniformModel :=
      if d.glCreateProgram = 0 ∨ d.linkStatus = 0 ∨ d.validateStatus = 0 then 0
      else toGLuint d.glGetUniformLocation
    glewExperimental := GL_TRUE
    vertexArrayBinding := 0
    arrayBufferBinding := 0
    currentProgram := 0
    trace := contextCalls d ++ (createTriangleCalls d ++ compileShadersCalls d) }

/-- Number of frames the loop runs when the `k`-th and later close queries are answered by
`close`; `none` when the flag is not set within `fuel` queries. -/
def framesRun (close : Nat → Int) : Nat → Nat → Option Nat
  | 0, _ => none
  | fuel + 1, k =>
    if close k = 0 then (framesRun close fuel (k + 1)).map (· + 1) else some 0

/-- The world after a loop that started in `w`, ran `n` frames and then saw the flag set. -/
def afterLoop (mainWindow : Nat) (w : World) (n : Nat) : World :=
  { w with
    vertexArrayBinding := if n = 0 then w.vertexArrayBinding else 0
    currentProgram := if n = 0 then w.currentProgram else 0
    trace := w.trace ++ loopCalls mainWindow w.shader w.uniformModel w.VAO n }

/-! ## Classification of calls -/

/-- Calls that occur only inside the frame loop. -/
def Event.loopOnly : Event → Bool
  | .glfwWindowShouldClose _ => true
  | .glfwPollEvents => true
  | .glfwSwapBuffers _ => true
  | .glClearColor _ _ _ _ => true
  | .glClear _ => true
  | .glUseProgram _ => true
  | .glUniformMatrix4fv _ _ _ _ => true
  | .glDrawArrays _ _ _ => true
  | _ => false

/-! ## Example drivers -/

/-- A driver for which every step succeeds and the close flag is first set at query `n`. -/
def okDriver (n : Nat) : Driver :=
  { glfwInit := 1, glfwCreateWindow := 4096, bufferWidth := 800, bufferHeight := 600,
    glewInit := 0, glGenVertexArrays := 1, glGenBuffers := 1, glCreateProgram := 3,
    vertexShader := { shaderId := 1, compileStatus := 1, infoLog := "" },
    fragmentShader := { shaderId := 2, compileStatus := 1, infoLog := "" },
    linkStatus := 1, linkLog := "", validateStatus := 1, validateLog := "",
    glGetUniformLocation := 0,
    glfwWindowShouldClose := fun k => if k = n then 1 else 0 }

/-- As `okDriver 2`, but the vertex shader does not compile. -/
def vertexFailDriver : Driver :=
  { okDriver 2 with
    vertexShader := { shaderId := 1, compileStatus := 0, infoLog := "0:1: syntax error" } }

/-- As `okDriver 2`, but the program does not link. -/
def linkFailDriver : Driver :=
  { okDriver 2 with linkStatus := 0, linkLog := "error: vCol not written" }

/-- As `okDriver 2`, but `glCreateProgram` returns 0. -/
def noProgramDriver : Driver :=
  { okDriver 2 with glCreateProgram := 0 }

/-- As `okDriver 2`, but the uniform is reported as not found. -/
def noUniformDriver : Driver :=
  { okDriver 2 with glGetUniformLocation := -1 }

/-- As `okDriver 2`, but `glewInit` fails. -/
def glewFailDriver : Driver :=
  { okDriver 2 with glewInit := 1 }

/-- A world in which a vertex array and a buffer are bound. -/
def boundWorld : World :=
  { World.init with vertexArrayBinding := 5, arrayBufferBinding := 7 }

/-! ## Shape of a run -/

/-- What a finished run of `main` shows of its control flow: exit code, number of draw calls,
number of buffer swaps, number of close-flag queries. -/
def runShape (r : Int × World) : Int × Nat × Nat × Nat :=
  (r.1, (drawCalls r.2.trace).length, swapCount r.2.trace, closeQueryCount r.2.trace)

/-! ## Lemmas: the functions of `main.cpp` as trace extensions -/

theorem newEvents_append (w w' : World) (es : List Event) (h : w'.trace = w.trace ++ es) :
    newEvents w w' = es := by
  simp [newEvents, h]

theorem f32_zero : f32 0.0 = 0 := by decide!

theorem f32_one : f32 1.0 = 1 := by decide!

theorem f32_two_fifths : f32 0.4 = 13421773 / 33554432 := by decide!

theorem roundF32_samples :
    roundF32 0.1 = 13421773 / 134217728 ∧
    roundF32 (1 / 3) = 11184811 / 33554432 ∧
    roundF32 16777217 = 16777216 ∧
    roundF32 16777219 = 16777220 ∧
    roundF32 (-0.4) = -(13421773 / 33554432) ∧
    roundF32 (13421773 / 33554432) = 13421773 / 33554432 := by decide!

theorem fmul_zero_left (x : GLfloat) : fmul 0 x = 0 := by
  simp [fmul, roundF32]

theorem scale_identity :
    scale (mat4 (f32 1.0)) ⟨f32 0.4, f32 0.4, f32 1.0⟩ = diag (f32 0.4) (f32 0.4) 1 1 := by
  have h1 : fmul 1 (13421773 / 33554432) = 13421773 / 33554432 := by decide!
  have h2 : fmul 1 1 = 1 := by decide!
  rw [f32_one, f32_two_fifths]
  simp only [scale, mat4, diag, Vec4.mulScalar, fmul_zero_left, h1, h2]

theorem AddShader_eq (r : ShaderReply) (p : Nat) (code : String) (ty : Nat) (w : World) :
    AddShader r p code ty w =
      { w with trace := w.trace ++ (compileCalls r.shaderId code ty ++
          if r.compileStatus = 0 then
            [.glGetShaderInfoLog r.shaderId 1024,
             .printf "Error compiling the %d shader: '%s'\n" [.int ty, .str r.infoLog]]
          else [.glAttachShader p r.shaderId]) } := by
  unfold AddShader compileCalls World.call
  by_cases h : r.compileStatus = 0 <;> simp [h]

theorem frame_eq (mw : Nat) (w : World) :
    frame mw w =
      { w with vertexArrayBinding := 0, currentProgram := 0,
               trace := w.trace ++ frameCalls mw w.shader w.uniformModel w.VAO } := by
  unfold frame
  simp only [scale_identity]
  simp only [f32_zero, f32_one]
  simp [frameCalls, glUseProgram, glBindVertexArray, World.call]

theorem CompileShaders_eq (d : Driver) (w : World) :
    CompileShaders d w =
      { w with
        shader := d.glCreateProgram
        uniformModel :=
          if d.glCreateProgram = 0 ∨ d.linkStatus = 0 ∨ d.validateStatus = 0 then w.uniformModel
          else toGLuint d.glGetUniformLocation
        trace := w.trace ++ compileShadersCalls d } := by
  unfold CompileShaders compileShadersCalls linkCalls
  simp only [AddShader_eq, World.call]
  by_cases h1 : d.glCreateProgram = 0
  · simp [h1]
  · by_cases h2 : d.linkStatus = 0
    · simp [h1, h2, addShaderCalls]
    · by_cases h3 : d.validateStatus = 0
      · simp [h1, h2, h3, addShaderCalls]
      · simp [h1, h2, h3, addShaderCalls]

theorem attachments_append (xs ys : List Event) :
    attachments (xs ++ ys) = attachments xs ++ attachments ys := by
  induction xs with
  | nil => rfl
  | cons e es ih => cases e <;> simp [attachments, ih]

theorem uniformQueries_append (xs ys : List Event) :
    uniformQueries (xs ++ ys) = uniformQueries xs ++ uniformQueries ys := by
  induction xs with
  | nil => rfl
  | cons e es ih => cases e <;> simp [uniformQueries, ih]

theorem attachments_addShaderCalls (r : ShaderReply) (p : Nat) (code : String) (ty : Nat) :
    attachments (addShaderCalls r p code ty) =
      if r.compileStatus = 0 then [] else [(p, r.shaderId)] := by
  unfold addShaderCalls compileCalls
  by_cases h : r.compileStatus = 0 <;> simp [h, attachments]

theorem attachments_linkCalls (d : Driver) : attachments (linkCalls d) = [] := by
  unfold linkCalls
  by_cases h2 : d.linkStatus = 0
  · simp [h2, attachments]
  · by_cases h3 : d.validateStatus = 0 <;> simp [h2, h3, attachments]

theorem uniformQueries_addShaderCalls (r : ShaderReply) (p : Nat) (code : String) (ty : Nat) :
    uniformQueries (addShaderCalls r p code ty) = [] := by
  unfold addShaderCalls compileCalls
  by_cases h : r.compileStatus = 0 <;> simp [h, uniformQueries]

theorem newEvents_CompileShaders (d : Driver) (w : World) :
    newEvents w (CompileShaders d w) = compileShadersCalls d := by
  apply newEvents_append
  rw [CompileShaders_eq]

theorem newEvents_AddShader (r : ShaderReply) (p : Nat) (code : String) (ty : Nat)
    (w : World) : newEvents w (AddShader r p code ty w) = addShaderCalls r p code ty := by
  apply newEvents_append
  rw [AddShader_eq]; rfl

theorem uniformQueries_linkCalls (d : Driver) :
    uniformQueries (linkCalls d) =
      if d.linkStatus = 0 ∨ d.validateStatus = 0 then []
      else [(d.glCreateProgram, "model")] := by
  unfold linkCalls
  by_cases h2 : d.linkStatus = 0
  · simp [h2, uniformQueries]
  · by_cases h3 : d.validateStatus = 0 <;> simp [h2, h3, uniformQueries]

theorem uniformQueries_compileShadersCalls (d : Driver) :
    uniformQueries (compileShadersCalls d) =
      if d.glCreateProgram = 0 ∨ d.linkStatus = 0 ∨ d.validateStatus = 0 then []
      else [(d.glCreateProgram, "model")] := by
  unfold compileShadersCalls
  by_cases h1 : d.glCreateProgram = 0
  · simp [h1, uniformQueries]
  · rw [if_neg h1]
    unfold uniformQueries
    rw [uniformQueries_append, uniformQueries_append, uniformQueries_addShaderCalls,
      uniformQueries_addShaderCalls, uniformQueries_linkCalls]
    simp [h1]

theorem attachments_compileShadersCalls (d : Driver) (h : d.glCreateProgram ≠ 0) :
    attachments (compileShadersCalls d) =
      (if d.vertexShader.compileStatus = 0 then []
        else [(d.glCreateProgram, d.vertexShader.shaderId)]) ++
      (if d.fragmentShader.compileStatus = 0 then []
        else [(d.glCreateProgram, d.fragmentShader.shaderId)]) := by
  unfold compileShadersCalls
  rw [if_neg h]
  unfold attachments
  rw [attachments_append, attachments_append, attachments_addShaderCalls,
    attachments_addShaderCalls, attachments_linkCalls]
  simp

theorem vertices_eq : vertices = [-1, -1, 0, 1, -1, 0, 0, 1, 0] := by
  unfold vertices
  rw [f32_zero, f32_one]

theorem CreateTriangle_eq (d : Driver) (w : World) :
    CreateTriangle d w =
      { w with VAO := d.glGenVertexArrays, VBO := d.glGenBuffers,
               vertexArrayBinding := 0, arrayBufferBinding := 0,
               trace := w.trace ++ createTriangleCalls d } := by
  simp [CreateTriangle, createTriangleCalls, glBindVertexArray, glBindBuffer, World.call,
    vertices_eq, sizeofGLfloat]

theorem frameLoop_eq (d : Driver) (mw : Nat) (fuel : Nat) :
    ∀ (k : Nat) (w : World),
      frameLoop d mw fuel k w = (framesRun d.glfwWindowShouldClose fuel k).map (afterLoop mw w) := by
  induction fuel with
  | zero => intro k w; rfl
  | succ fuel ih =>
    intro k w
    have key : ∀ n, afterLoop mw (frame mw (w.call (.glfwWindowShouldClose mw))) n =
        afterLoop mw w (n + 1) := by
      intro n
      rw [frame_eq]
      simp [afterLoop, World.call, loopCalls]
    have last : w.call (.glfwWindowShouldClose mw) = afterLoop mw w 0 := by
      simp [afterLoop, World.call, loopCalls]
    unfold frameLoop framesRun
    by_cases h : d.glfwWindowShouldClose k = 0
    · dsimp only []
      rw [if_pos h, if_pos h, ih, Option.map_map, funext key]
      rfl
    · dsimp only []
      rw [if_neg h, if_neg h, Option.map_some', last]

theorem framesRun_of_first (close : Nat → Int) (n : Nat) :
    ∀ (fuel k : Nat), (∀ i, i < n → close (k + i) = 0) → close (k + n) ≠ 0 → n < fuel →
      framesRun close fuel k = some n := by
  induction n with
  | zero =>
    intro fuel k _ hn hf
    obtain ⟨f, rfl⟩ : ∃ f, fuel = f + 1 := ⟨fuel - 1, by omega⟩
    simp only [Nat.add_zero] at hn
    simp [framesRun, hn]
  | succ n ih =>
    intro fuel k h0 hn hf
    obtain ⟨f, rfl⟩ : ∃ f, fuel = f + 1 := ⟨fuel - 1, by omega⟩
    have hk : close k = 0 := by simpa using h0 0 (Nat.succ_pos n)
    have := ih f (k + 1) (fun i hi => by
      have := h0 (i + 1) (by omega)
      rwa [show k + 1 + i = k + (i + 1) by omega]) (by
      rwa [show k + 1 + n = k + (n + 1) by omega]) (by omega)
    simp [framesRun, hk, this]

theorem framesRun_of_never (close : Nat → Int) (fuel : Nat) :
    ∀ k, (∀ i, close (k + i) = 0) → framesRun close fuel k = none := by
  induction fuel with
  | zero => intro k _; rfl
  | succ fuel ih =>
    intro k h
    have hk : close k = 0 := by simpa using h 0
    have := ih (k + 1) (fun i => by
      have := h (i + 1)
      rwa [show k + 1 + i = k + (i + 1) by omega])
    simp [framesRun, hk, this]

theorem framesRun_some (close : Nat → Int) (fuel : Nat) :
    ∀ k n, framesRun close fuel k = some n →
      n < fuel ∧ (∀ i, i < n → close (k + i) = 0) ∧ close (k + n) ≠ 0 := by
  induction fuel with
  | zero => intro k n h; simp [framesRun] at h
  | succ fuel ih =>
    intro k n h
    unfold framesRun at h
    by_cases hk : close k = 0
    · simp only [hk, if_true, Option.map_eq_some'] at h
      obtain ⟨m, hm, rfl⟩ := h
      obtain ⟨h1, h2, h3⟩ := ih (k + 1) m hm
      refine ⟨by omega, ?_, ?_⟩
      · intro i hi
        rcases Nat.eq_zero_or_pos i with rfl | hpos
        · simpa using hk
        · have := h2 (i - 1) (by omega)
          rwa [show k + 1 + (i - 1) = k + i by omega] at this
      · rwa [show k + 1 + m = k + (m + 1) by omega] at h3
    · simp only [hk, if_false, Option.some.injEq] at h
      subst h
      exact ⟨by omega, by intro i hi; omega, by simpa using hk⟩

theorem main_eq (d : Driver) (fuel : Nat) (hinit : d.glfwInit ≠ 0)
    (hwin : d.glfwCreateWindow ≠ 0) :
    main d fuel =
      (framesRun d.glfwWindowShouldClose fuel 0).map
        (fun n => ((0 : Int), afterLoop d.glfwCreateWindow (loopEntry d) n)) := by
  unfold main
  simp only [hinit, hwin, if_false, frameLoop_eq, Option.map_map, CompileShaders_eq,
    CreateTriangle_eq]
  congr 1
  funext n
  by_cases hg : d.glewInit = GLEW_OK <;>
    simp [afterLoop, loopEntry, contextCalls, World.call, World.init, hg, WIDTH, HEIGHT]

theorem drawCalls_append (xs ys : List Event) :
    drawCalls (xs ++ ys) = drawCalls xs ++ drawCalls ys := by
  induction xs with
  | nil => rfl
  | cons e es ih => cases e <;> simp [drawCalls, ih]

theorem uploadLocations_append (xs ys : List Event) :
    uploadLocations (xs ++ ys) = uploadLocations xs ++ uploadLocations ys := by
  induction xs with
  | nil => rfl
  | cons e es ih => cases e <;> simp [uploadLocations, ih]

theorem programUses_append (xs ys : List Event) :
    programUses (xs ++ ys) = programUses xs ++ programUses ys := by
  induction xs with
  | nil => rfl
  | cons e es ih => cases e <;> simp [programUses, ih]

theorem swapCount_append (xs ys : List Event) :
    swapCount (xs ++ ys) = swapCount xs + swapCount ys := by
  induction xs with
  | nil => simp [swapCount]
  | cons e es ih => cases e <;> simp [swapCount, ih]; omega

theorem closeQueryCount_append (xs ys : List Event) :
    closeQueryCount (xs ++ ys) = closeQueryCount xs + closeQueryCount ys := by
  induction xs with
  | nil => simp [closeQueryCount]
  | cons e es ih => cases e <;> simp [closeQueryCount, ih]; omega

theorem drawCalls_of_setup (es : List Event) (h : ∀ e ∈ es, e.loopOnly = false) :
    drawCalls es = [] := by
  induction es with
  | nil => rfl
  | cons e es ih =>
    have he := h e (List.mem_cons_self _ _)
    have ht := ih (fun x hx => h x (List.mem_cons_of_mem _ hx))
    cases e <;> simp_all [drawCalls, Event.loopOnly]

theorem uploadLocations_of_setup (es : List Event) (h : ∀ e ∈ es, e.loopOnly = false) :
    uploadLocations es = [] := by
  induction es with
  | nil => rfl
  | cons e es ih =>
    have he := h e (List.mem_cons_self _ _)
    have ht := ih (fun x hx => h x (List.mem_cons_of_mem _ hx))
    cases e <;> simp_all [uploadLocations, Event.loopOnly]

theorem programUses_of_setup (es : List Event) (h : ∀ e ∈ es, e.loopOnly = false) :
    programUses es = [] := by
  induction es with
  | nil => rfl
  | cons e es ih =>
    have he := h e (List.mem_cons_self _ _)
    have ht := ih (fun x hx => h x (List.mem_cons_of_mem _ hx))
    cases e <;> simp_all [programUses, Event.loopOnly]

theorem swapCount_of_setup (es : List Event) (h : ∀ e ∈ es, e.loopOnly = false) :
    swapCount es = 0 := by
  induction es with
  | nil => rfl
  | cons e es ih =>
    have he := h e (List.mem_cons_self _ _)
    have ht := ih (fun x hx => h x (List.mem_cons_of_mem _ hx))
    cases e <;> simp_all [swapCount, Event.loopOnly]

theorem closeQueryCount_of_setup (es : List Event) (h : ∀ e ∈ es, e.loopOnly = false) :
    closeQueryCount es = 0 := by
  induction es with
  | nil => rfl
  | cons e es ih =>
    have he := h e (List.mem_cons_self _ _)
    have ht := ih (fun x hx => h x (List.mem_cons_of_mem _ hx))
    cases e <;> simp_all [closeQueryCount, Event.loopOnly]

theorem addShaderCalls_setup (r : ShaderReply) (p : Nat) (code : String) (ty : Nat) :
    ∀ e ∈ addShaderCalls r p code ty, e.loopOnly = false := by
  unfold addShaderCalls compileCalls
  by_cases h : r.compileStatus = 0 <;> simp [h, Event.loopOnly]

theorem linkCalls_setup (d : Driver) : ∀ e ∈ linkCalls d, e.loopOnly = false := by
  unfold linkCalls
  by_cases h2 : d.linkStatus = 0
  · simp [h2, Event.loopOnly]
  · by_cases h3 : d.validateStatus = 0 <;> simp [h2, h3, Event.loopOnly]

theorem compileShadersCalls_setup (d : Driver) :
    ∀ e ∈ compileShadersCalls d, e.loopOnly = false := by
  unfold compileShadersCalls
  intro e he
  rw [List.mem_cons] at he
  rcases he with rfl | he
  · rfl
  · by_cases h1 : d.glCreateProgram = 0
    · rw [if_pos h1] at he
      simp at he
      subst he
      rfl
    · rw [if_neg h1, List.mem_append, List.mem_append] at he
      rcases he with he | he | he
      · exact addShaderCalls_setup _ _ _ _ e he
      · exact addShaderCalls_setup _ _ _ _ e he
      · exact linkCalls_setup d e he

theorem createTriangleCalls_setup (d : Driver) :
    ∀ e ∈ createTriangleCalls d, e.loopOnly = false := by
  unfold createTriangleCalls
  simp [Event.loopOnly]

theorem contextCalls_setup (d : Driver) : ∀ e ∈ contextCalls d, e.loopOnly = false := by
  unfold contextCalls
  by_cases hg : d.glewInit = GLEW_OK <;> simp [hg, Event.loopOnly]

theorem loopEntry_setup (d : Driver) : ∀ e ∈ (loopEntry d).trace, e.loopOnly = false := by
  intro e he
  simp only [loopEntry, List.mem_append] at he
  rcases he with he | he | he
  · exact contextCalls_setup d e he
  · exact createTriangleCalls_setup d e he
  · exact compileShadersCalls_setup d e he

theorem loopCalls_succ (mw sh um vao n : Nat) :
    loopCalls mw sh um vao (n + 1) =
      [.glfwWindowShouldClose mw] ++ (frameCalls mw sh um vao ++ loopCalls mw sh um vao n) :=
  rfl

theorem loopCalls_eq (mw sh um vao n : Nat) :
    loopCalls mw sh um vao n =
      (List.replicate n (.glfwWindowShouldClose mw :: frameCalls mw sh um vao)).flatten ++
        [.glfwWindowShouldClose mw] := by
  induction n with
  | zero => rfl
  | succ n ih =>
    rw [loopCalls_succ, ih, List.replicate_succ, List.flatten_cons]
    simp only [List.singleton_append, List.cons_append, List.append_assoc, List.nil_append]

theorem drawCalls_loopCalls (mw sh um vao n : Nat) :
    drawCalls (loopCalls mw sh um vao n) = List.replicate n (GL_TRIANGLES, (0 : Int), 3) := by
  induction n with
  | zero => rfl
  | succ n ih =>
    rw [loopCalls_succ, drawCalls_append, drawCalls_append, ih, List.replicate_succ]
    rfl

theorem uploadLocations_loopCalls (mw sh um vao n : Nat) :
    uploadLocations (loopCalls mw sh um vao n) = List.replicate n (toGLint um) := by
  induction n with
  | zero => rfl
  | succ n ih =>
    rw [loopCalls_succ, uploadLocations_append, uploadLocations_append, ih,
      List.replicate_succ]
    rfl

theorem programUses_loopCalls (mw sh um vao n : Nat) :
    programUses (loopCalls mw sh um vao n) = (List.replicate n [sh, 0]).flatten := by
  induction n with
  | zero => rfl
  | succ n ih =>
    rw [loopCalls_succ, programUses_append, programUses_append, ih, List.replicate_succ,
      List.flatten_cons]
    rfl

theorem swapCount_loopCalls (mw sh um vao n : Nat) :
    swapCount (loopCalls mw sh um vao n) = n := by
  induction n with
  | zero => rfl
  | succ n ih =>
    rw [loopCalls_succ, swapCount_append, swapCount_append, ih]
    have h1 : swapCount [Event.glfwWindowShouldClose mw] = 0 := rfl
    have h2 : swapCount (frameCalls mw sh um vao) = 1 := rfl
    omega

theorem closeQueryCount_loopCalls (mw sh um vao n : Nat) :
    closeQueryCount (loopCalls mw sh um vao n) = n + 1 := by
  induction n with
  | zero => rfl
  | succ n ih =>
    rw [loopCalls_succ, closeQueryCount_append, closeQueryCount_append, ih]
    have h1 : closeQueryCount [Event.glfwWindowShouldClose mw] = 1 := rfl
    have h2 : closeQueryCount (frameCalls mw sh um vao) = 0 := rfl
    omega

/-! ## Runs of `main` -/

theorem main_of_first (d : Driver) (hinit : d.glfwInit ≠ 0) (hwin : d.glfwCreateWindow ≠ 0)
    (n : Nat) (h0 : ∀ i, i < n → d.glfwWindowShouldClose i = 0)
    (hn : d.glfwWindowShouldClose n ≠ 0) (fuel : Nat) (hf : n < fuel) :
    main d fuel = some (0, afterLoop d.glfwCreateWindow (loopEntry d) n) := by
  rw [main_eq d fuel hinit hwin,
    framesRun_of_first d.glfwWindowShouldClose n fuel 0 (by simpa using h0) (by simpa using hn) hf]
  rfl

theorem main_of_never (d : Driver) (hinit : d.glfwInit ≠ 0) (hwin : d.glfwCreateWindow ≠ 0)
    (h : ∀ i, d.glfwWindowShouldClose i = 0) (fuel : Nat) : main d fuel = none := by
  rw [main_eq d fuel hinit hwin,
    framesRun_of_never d.glfwWindowShouldClose fuel 0 (by simpa using h)]
  rfl

theorem main_some (d : Driver) (hinit : d.glfwInit ≠ 0) (hwin : d.glfwCreateWindow ≠ 0)
    (fuel : Nat) (r : Int × World) (h : main d fuel = some r) :
    ∃ n, n < fuel ∧ (∀ i, i < n → d.glfwWindowShouldClose i = 0) ∧
      d.glfwWindowShouldClose n ≠ 0 ∧
      r = (0, afterLoop d.glfwCreateWindow (loopEntry d) n) := by
  rw [main_eq d fuel hinit hwin, Option.map_eq_some'] at h
  obtain ⟨n, hn, rfl⟩ := h
  obtain ⟨h1, h2, h3⟩ := framesRun_some _ _ _ _ hn
  exact ⟨n, h1, by simpa using h2, by simpa using h3, rfl⟩

theorem main_glfwInit_fails (d : Driver) (h : d.glfwInit = 0) (fuel : Nat) :
    main d fuel =
      some (1, { World.init with
        trace := [.glfwInit, .printf "GLFW initialization failed" [], .glfwTerminate] }) := by
  simp [main, h, World.call, World.init]

theorem main_no_window (d : Driver) (h1 : d.glfwInit ≠ 0) (h2 : d.glfwCreateWindow = 0)
    (fuel : Nat) :
    main d fuel =
      some (1, { World.init with
        trace := [.glfwInit,
                  .glfwWindowHint GLFW_CONTEXT_VERSION_MAJOR 3,
                  .glfwWindowHint GLFW_CONTEXT_VERSION_MINOR 3,
                  .glfwWindowHint GLFW_OPENGL_PROFILE GLFW_OPENGL_CORE_PROFILE,
                  .glfwWindowHint GLFW_OPENGL_FORWARD_COMPAT GL_TRUE,
                  .glfwCreateWindow 800 600 "Test Window" 0 0,
                  .printf "GLFW window creation failed!" [],
                  .glfwTerminate] }) := by
  simp [main, h1, h2, World.call, World.init, WIDTH, HEIGHT]

theorem afterLoop_trace (mw : Nat) (w : World) (n : Nat) :
    (afterLoop mw w n).trace = w.trace ++ loopCalls mw w.shader w.uniformModel w.VAO n :=
  rfl

theorem drawCalls_afterLoop (d : Driver) (mw n : Nat) :
    drawCalls (afterLoop mw (loopEntry d) n).trace =
      List.replicate n (GL_TRIANGLES, (0 : Int), 3) := by
  rw [afterLoop_trace, drawCalls_append, drawCalls_of_setup _ (loopEntry_setup d),
    drawCalls_loopCalls, List.nil_append]

theorem uploadLocations_afterLoop (d : Driver) (mw n : Nat) :
    uploadLocations (afterLoop mw (loopEntry d) n).trace =
      List.replicate n (toGLint (loopEntry d).uniformModel) := by
  rw [afterLoop_trace, uploadLocations_append, uploadLocations_of_setup _ (loopEntry_setup d),
    uploadLocations_loopCalls, List.nil_append]

theorem programUses_afterLoop (d : Driver) (mw n : Nat) :
    programUses (afterLoop mw (loopEntry d) n).trace =
      (List.replicate n [d.glCreateProgram, 0]).flatten := by
  rw [afterLoop_trace, programUses_append, programUses_of_setup _ (loopEntry_setup d),
    programUses_loopCalls, List.nil_append]
  rfl

theorem swapCount_afterLoop (d : Driver) (mw n : Nat) :
    swapCount (afterLoop mw (loopEntry d) n).trace = n := by
  rw [afterLoop_trace, swapCount_append, swapCount_of_setup _ (loopEntry_setup d),
    swapCount_loopCalls, Nat.zero_add]

theorem closeQueryCount_afterLoop (d : Driver) (mw n : Nat) :
    closeQueryCount (afterLoop mw (loopEntry d) n).trace = n + 1 := by
  rw [afterLoop_trace, closeQueryCount_append,
    closeQueryCount_of_setup _ (loopEntry_setup d), closeQueryCount_loopCalls, Nat.zero_add]

theorem toGLint_toGLuint (L : Int) (h1 : -2 ^ 31 ≤ L) (h2 : L < 2 ^ 31) :
    toGLint (toGLuint L) = L := by
  unfold toGLint toGLuint
  have hnn : 0 ≤ L % 2 ^ 32 := Int.emod_nonneg _ (by norm_num)
  have hlt : L % 2 ^ 32 < 2 ^ 32 := Int.emod_lt_of_pos _ (by norm_num)
  have hmod : (L % 2 ^ 32).toNat % 2 ^ 32 = (L % 2 ^ 32).toNat := by
    apply Nat.mod_eq_of_lt
    omega
  rw [hmod]
  have hcast : (((L % 2 ^ 32).toNat : Nat) : Int) = L % 2 ^ 32 := Int.toNat_of_nonneg hnn
  split
  · omega
  · omega

/-! ## Shader program builder -/

/-- C1: when `glCreateProgram` succeeds, the vertex shader fails to compile and the fragment
shader compiles, `CompileShaders` first runs the vertex stage, which ends with fetching the log
and the report `printf("Error compiling the %d shader: '%s'\n", GL_VERTEX_SHADER, log)` and has
no `glAttachShader`; then the fragment stage is created, compiled and attached; the only
attachment of the whole call is the fragment shader.  In general `AddShader` attaches the shader
it created to the given program iff its own compile status is non-zero, and in `CompileShaders`
the attachments of the two stages are decided separately. -/
theorem vertex_failure_reported_fragment_attached (d : Driver) (w : World)
    (hprog : d.glCreateProgram ≠ 0)
    (hv : d.vertexShader.compileStatus = 0)
    (hf : d.fragmentShader.compileStatus ≠ 0) :
    (∃ rest,
      newEvents w (CompileShaders d w) =
        [.glCreateProgram,
         .glCreateShader GL_VERTEX_SHADER,
         .glShaderSource d.vertexShader.shaderId 1 [vShader] [(vShader.utf8ByteSize : Int)],
         .glCompileShader d.vertexShader.shaderId,
         .glGetShaderiv d.vertexShader.shaderId GL_COMPILE_STATUS,
         .glGetShaderInfoLog d.vertexShader.shaderId 1024,
         .printf "Error compiling the %d shader: '%s'\n"
           [.int GL_VERTEX_SHADER, .str d.vertexShader.infoLog],
         .glCreateShader GL_FRAGMENT_SHADER,
         .glShaderSource d.fragmentShader.shaderId 1 [fShader] [(fShader.utf8ByteSize : Int)],
         .glCompileShader d.fragmentShader.shaderId,
         .glGetShaderiv d.fragmentShader.shaderId GL_COMPILE_STATUS,
         .glAttachShader d.glCreateProgram d.fragmentShader.shaderId] ++ rest
      ∧ attachments rest = [])
    ∧ attachments (newEvents w (CompileShaders d w)) =
        [(d.glCreateProgram, d.fragmentShader.shaderId)]
    ∧ GL_VERTEX_SHADER ≠ GL_FRAGMENT_SHADER
    ∧ (∀ (r : ShaderReply) (p : Nat) (code : String) (ty : Nat) (w0 : World),
        attachments (newEvents w0 (AddShader r p code ty w0)) =
          (if r.compileStatus = 0 then [] else [(p, r.shaderId)])
        ∧ ((p, r.shaderId) ∈ attachments (newEvents w0 (AddShader r p code ty w0)) ↔
            r.compileStatus ≠ 0))
    ∧ (∀ (e : Driver) (w0 : World), e.glCreateProgram ≠ 0 →
        attachments (newEvents w0 (CompileShaders e w0)) =
          (if e.vertexShader.compileStatus = 0 then []
            else [(e.glCreateProgram, e.vertexShader.shaderId)]) ++
          (if e.fragmentShader.compileStatus = 0 then []
            else [(e.glCreateProgram, e.fragmentShader.shaderId)])) := by
  refine ⟨⟨linkCalls d, ?_, attachments_linkCalls d⟩, ?_, by decide, ?_, ?_⟩
  · rw [newEvents_CompileShaders]
    simp [compileShadersCalls, addShaderCalls, compileCalls, hprog, hv, hf]
  · rw [newEvents_CompileShaders, attachments_compileShadersCalls d hprog]
    simp [hv, hf]
  · intro r p code ty w0
    rw [newEvents_AddShader, attachments_addShaderCalls]
    by_cases h : r.compileStatus = 0 <;> simp [h]
  · intro e w0 he
    rw [newEvents_CompileShaders, attachments_compileShadersCalls e he]

/-- C1 at `vertexFailDriver`: the hypotheses hold and the fragment shader (id 2) is the
only shader attached to program 3. -/
theorem vertex_failure_reported_fragment_attached_witness :
    vertexFailDriver.glCreateProgram ≠ 0 ∧
    vertexFailDriver.vertexShader.compileStatus = 0 ∧
    vertexFailDriver.fragmentShader.compileStatus ≠ 0 ∧
    attachments (newEvents World.init (CompileShaders vertexFailDriver World.init)) =
      [(3, 2)] :=
  ⟨by decide, by decide, by decide,
   (vertex_failure_reported_fragment_attached vertexFailDriver World.init
      (by decide) (by decide) (by decide)).2.1⟩

/-- C3: `CompileShaders` calls `glGetUniformLocation(shader, "model")` exactly once, as its
last call and after `glLinkProgram`, and stores the result (converted to `GLuint`) in
`uniformModel` when `glCreateProgram`, the link status and the validate status all report
success; when one of the three reports failure it makes no such call and `uniformModel`
keeps its value.  Hence a run that changes `uniformModel` had a successful link. -/
theorem uniform_resolved_iff_build_succeeds (d : Driver) (w : World) :
    (d.glCreateProgram ≠ 0 ∧ d.linkStatus ≠ 0 ∧ d.validateStatus ≠ 0 →
      uniformQueries (newEvents w (CompileShaders d w)) = [(d.glCreateProgram, "model")]
      ∧ (CompileShaders d w).uniformModel = toGLuint d.glGetUniformLocation
      ∧ ∃ pre, newEvents w (CompileShaders d w) =
            pre ++ [.glGetUniformLocation (CompileShaders d w).shader "model"]
          ∧ .glLinkProgram (CompileShaders d w).shader ∈ pre)
    ∧ (d.glCreateProgram = 0 ∨ d.linkStatus = 0 ∨ d.validateStatus = 0 →
      uniformQueries (newEvents w (CompileShaders d w)) = []
      ∧ (CompileShaders d w).uniformModel = w.uniformModel)
    ∧ ((CompileShaders d w).uniformModel ≠ w.uniformModel → d.linkStatus ≠ 0) := by
  rw [newEvents_CompileShaders, uniformQueries_compileShadersCalls, CompileShaders_eq]
  refine ⟨?_, ?_, ?_⟩
  · rintro ⟨h1, h2, h3⟩
    refine ⟨by simp [h1, h2, h3], by simp [h1, h2, h3], ?_⟩
    refine ⟨.glCreateProgram ::
      (addShaderCalls d.vertexShader d.glCreateProgram vShader GL_VERTEX_SHADER ++
        (addShaderCalls d.fragmentShader d.glCreateProgram fShader GL_FRAGMENT_SHADER ++
          [.glLinkProgram d.glCreateProgram, .glGetProgramiv d.glCreateProgram GL_LINK_STATUS,
           .glValidateProgram d.glCreateProgram,
           .glGetProgramiv d.glCreateProgram GL_VALIDATE_STATUS])), ?_, ?_⟩
    · simp [compileShadersCalls, linkCalls, h1, h2, h3]
    · simp
  · intro h
    simp [h]
  · intro h hl
    apply h
    simp [hl]

/-- C3 on two runs: in the successful run `okDriver 2` the query is made once and location 0
is stored; in the run `linkFailDriver` no query is made and `uniformModel` keeps its value. -/
theorem uniform_resolved_iff_build_succeeds_witness :
    uniformQueries (newEvents World.init (CompileShaders (okDriver 2) World.init)) =
      [(3, "model")]
    ∧ uniformQueries (newEvents World.init (CompileShaders linkFailDriver World.init)) = [] :=
  ⟨((uniform_resolved_iff_build_succeeds (okDriver 2) World.init).1
      ⟨by decide, by decide, by decide⟩).1,
   ((uniform_resolved_iff_build_succeeds linkFailDriver World.init).2.1
      (Or.inr (Or.inl (by decide)))).1⟩

/-- C4: when `glCreateProgram` returns 0, `CompileShaders` stores 0 in `shader`, prints
"Error creating shader program!" and returns: these are its only two calls, so no shader is
created, compiled or attached, the program is neither linked nor validated, the uniform
location is not queried, and `uniformModel` and everything else in the world is unchanged. -/
theorem creation_failure_returns_immediately (d : Driver) (w : World)
    (h : d.glCreateProgram = 0) :
    CompileShaders d w =
      { w with shader := 0,
               trace := w.trace ++
                 [.glCreateProgram, .printf "Error creating shader program!\n" []] }
    ∧ newEvents w (CompileShaders d w) =
        [.glCreateProgram, .printf "Error creating shader program!\n" []]
    ∧ (CompileShaders d w).uniformModel = w.uniformModel := by
  rw [newEvents_CompileShaders, CompileShaders_eq]
  simp [compileShadersCalls, h]

/-- C4 at `noProgramDriver`, from the initial world. -/
theorem creation_failure_returns_immediately_witness :
    noProgramDriver.glCreateProgram = 0 ∧
    newEvents World.init (CompileShaders noProgramDriver World.init) =
      [.glCreateProgram, .printf "Error creating shader program!\n" []] :=
  ⟨by decide,
   (creation_failure_returns_immediately noProgramDriver World.init (by decide)).2.1⟩

/-- C2 fails at `linkFailDriver` (both shaders compile, the link status is 0): after
`CompileShaders` from the initial world `uniformModel` is 0, which is neither the `GLuint`
image of -1 nor read back as -1, and the two frames `main` runs upload to location 0. -/
theorem link_failure_location_is_not_sentinel :
    linkFailDriver.glCreateProgram ≠ 0 ∧
    linkFailDriver.vertexShader.compileStatus ≠ 0 ∧
    linkFailDriver.fragmentShader.compileStatus ≠ 0 ∧
    linkFailDriver.linkStatus = 0 ∧
    (CompileShaders linkFailDriver World.init).uniformModel = 0 ∧
    (CompileShaders linkFailDriver World.init).uniformModel ≠ toGLuint (-1) ∧
    toGLint (CompileShaders linkFailDriver World.init).uniformModel ≠ -1 ∧
    (main linkFailDriver 3).map (fun r => uploadLocations r.2.trace) = some [0, 0] := by
  have hu : (CompileShaders linkFailDriver World.init).uniformModel = 0 := by
    rw [CompileShaders_eq]
    decide
  refine ⟨by decide, by decide, by decide, by decide, hu, ?_, ?_, ?_⟩
  · rw [hu]; decide
  · rw [hu]; decide
  · rw [main_of_first linkFailDriver (by decide) (by decide) 2 (by decide) (by decide) 3
      (by decide)]
    simp only [Option.map_some', uploadLocations_afterLoop]
    decide

/-- C2 as amended: when `glCreateProgram` succeeds, both shaders compile and the link status
is 0, `CompileShaders` attaches both shaders, links, queries the link status, fetches the log
and prints "Error linking program: '%s'" with it, and returns: `glGetUniformLocation` is not
called and `uniformModel` keeps the value it had before the call.  In `main` that value is the
initial 0, so every frame uploads to location 0. -/
theorem link_failure_reported_location_unchanged (d : Driver) (w : World)
    (hprog : d.glCreateProgram ≠ 0)
    (hv : d.vertexShader.compileStatus ≠ 0)
    (hf : d.fragmentShader.compileStatus ≠ 0)
    (hlink : d.linkStatus = 0) :
    newEvents w (CompileShaders d w) =
      [.glCreateProgram,
       .glCreateShader GL_VERTEX_SHADER,
       .glShaderSource d.vertexShader.shaderId 1 [vShader] [(vShader.utf8ByteSize : Int)],
       .glCompileShader d.vertexShader.shaderId,
       .glGetShaderiv d.vertexShader.shaderId GL_COMPILE_STATUS,
       .glAttachShader d.glCreateProgram d.vertexShader.shaderId,
       .glCreateShader GL_FRAGMENT_SHADER,
       .glShaderSource d.fragmentShader.shaderId 1 [fShader] [(fShader.utf8ByteSize : Int)],
       .glCompileShader d.fragmentShader.shaderId,
       .glGetShaderiv d.fragmentShader.shaderId GL_COMPILE_STATUS,
       .glAttachShader d.glCreateProgram d.fragmentShader.shaderId,
       .glLinkProgram d.glCreateProgram,
       .glGetProgramiv d.glCreateProgram GL_LINK_STATUS,
       .glGetProgramInfoLog d.glCreateProgram 1024,
       .printf "Error linking program: '%s'\n" [.str d.linkLog]]
    ∧ uniformQueries (newEvents w (CompileShaders d w)) = []
    ∧ (CompileShaders d w).uniformModel = w.uniformModel
    ∧ (d.glfwInit ≠ 0 → d.glfwCreateWindow ≠ 0 →
        ∀ n, (∀ i, i < n → d.glfwWindowShouldClose i = 0) → d.glfwWindowShouldClose n ≠ 0 →
          ∀ fuel, n < fuel →
            ∃ w', main d fuel = some (0, w') ∧ w'.uniformModel = 0 ∧
              uploadLocations w'.trace = List.replicate n 0) := by
  refine ⟨?_, ?_, ?_, ?_⟩
  · rw [newEvents_CompileShaders]
    simp [compileShadersCalls, addShaderCalls, compileCalls, linkCalls, hprog, hv, hf, hlink]
  · rw [newEvents_CompileShaders, uniformQueries_compileShadersCalls]
    simp [hlink]
  · rw [CompileShaders_eq]
    simp [hlink]
  · intro hinit hwin n h0 hn fuel hfuel
    have hum : (loopEntry d).uniformModel = 0 := by simp [loopEntry, hlink]
    refine ⟨_, main_of_first d hinit hwin n h0 hn fuel hfuel, hum, ?_⟩
    rw [uploadLocations_afterLoop, hum]
    rfl

/-- C2 as amended, at `linkFailDriver` from the initial world: `uniformModel` is unchanged. -/
theorem link_failure_reported_location_unchanged_witness :
    linkFailDriver.glCreateProgram ≠ 0 ∧
    linkFailDriver.vertexShader.compileStatus ≠ 0 ∧
    linkFailDriver.fragmentShader.compileStatus ≠ 0 ∧
    linkFailDriver.linkStatus = 0 ∧
    (CompileShaders linkFailDriver World.init).uniformModel = World.init.uniformModel :=
  ⟨by decide, by decide, by decide, by decide,
   (link_failure_reported_location_unchanged linkFailDriver World.init
      (by decide) (by decide) (by decide) (by decide)).2.2.1⟩

/-! ## Geometry uploader -/

/-- C8 fails at `boundWorld` (vertex array 5 and buffer 7 bound before the call): after
`CreateTriangle` both bindings are 0. -/
theorem createTriangle_resets_bound_state :
    boundWorld.vertexArrayBinding = 5 ∧
    boundWorld.arrayBufferBinding = 7 ∧
    (CreateTriangle (okDriver 2) boundWorld).vertexArrayBinding = 0 ∧
    (CreateTriangle (okDriver 2) boundWorld).arrayBufferBinding = 0 ∧
    (CreateTriangle (okDriver 2) boundWorld).vertexArrayBinding ≠ boundWorld.vertexArrayBinding ∧
    (CreateTriangle (okDriver 2) boundWorld).arrayBufferBinding ≠ boundWorld.arrayBufferBinding := by
  rw [CreateTriangle_eq]
  decide

/-- C8 as amended: for every world before the call, `CreateTriangle` binds its new vertex array
and its new buffer and last binds 0 to both, so after the call the array-buffer binding and the
vertex-array binding are both 0; they equal their values before the call exactly when nothing
was bound before the call.  The program in use is not touched. -/
theorem createTriangle_leaves_nothing_bound (d : Driver) (w : World) :
    newEvents w (CreateTriangle d w) =
      [.glGenVertexArrays 1,
       .glBindVertexArray d.glGenVertexArrays,
       .glGenBuffers 1,
       .glBindBuffer GL_ARRAY_BUFFER d.glGenBuffers,
       .glBufferData GL_ARRAY_BUFFER 36 [-1, -1, 0, 1, -1, 0, 0, 1, 0] GL_STATIC_DRAW,
       .glVertexAttribPointer 0 3 GL_FLOAT GL_FALSE 0 0,
       .glEnableVertexAttribArray 0,
       .glBindBuffer GL_ARRAY_BUFFER 0,
       .glBindVertexArray 0]
    ∧ (CreateTriangle d w).arrayBufferBinding = 0
    ∧ (CreateTriangle d w).vertexArrayBinding = 0
    ∧ (CreateTriangle d w).currentProgram = w.currentProgram
    ∧ (((CreateTriangle d w).arrayBufferBinding = w.arrayBufferBinding ∧
        (CreateTriangle d w).vertexArrayBinding = w.vertexArrayBinding) ↔
       (w.arrayBufferBinding = 0 ∧ w.vertexArrayBinding = 0)) := by
  refine ⟨?_, ?_, ?_, ?_, ?_⟩
  · apply newEvents_append
    rw [CreateTriangle_eq]
    rfl
  · rw [CreateTriangle_eq]
  · rw [CreateTriangle_eq]
  · rw [CreateTriangle_eq]
  · rw [CreateTriangle_eq]
    constructor
    · rintro ⟨h1, h2⟩
      exact ⟨h1.symm, h2.symm⟩
    · rintro ⟨h1, h2⟩
      exact ⟨h1.symm, h2.symm⟩

/-! ## Frame loop and `main` -/

theorem runShape_afterLoop (d : Driver) (mw n : Nat) :
    runShape (0, afterLoop mw (loopEntry d) n) = (0, n, n, n + 1) := by
  simp [runShape, drawCalls_afterLoop, swapCount_afterLoop, closeQueryCount_afterLoop]

theorem frame_newEvents (mw : Nat) (w : World) :
    newEvents w (frame mw w) = frameCalls mw w.shader w.uniformModel w.VAO := by
  apply newEvents_append
  rw [frame_eq]

/-- C7: for every world, one frame makes exactly the calls poll events, clear colour (0,0,0,1),
clear the colour buffer, `glUseProgram(shader)`, `glUniformMatrix4fv(uniformModel, 1, GL_FALSE,
m)`, bind `VAO`, `glDrawArrays(GL_TRIANGLES, 0, 3)`, bind 0, `glUseProgram(0)`, swap buffers, in
this order.  The matrix `m` is `scale(mat4(1.0f), vec3(0.4f, 0.4f, 1.0f))` computed in binary32,
and it is the diagonal matrix with diagonal 0.4f, 0.4f, 1, 1 and zeros elsewhere: the products
by 1.0f and by 0 round to themselves.  Here 0.4f is the binary32 number nearest to 0.4, which
is 13421773/33554432.  The frame has one draw call; it leaves `shader`, `uniformModel` and
`VAO` as they are, and after `CreateTriangle` and `CompileShaders` these hold the driver's
vertex-array and program names.  A run of `main` with `n` frames consists, after the setup, of
`n` copies of the close query followed by this trace, and one last close query. -/
theorem frame_call_trace (d : Driver) (mw : Nat) (w : World) :
    newEvents w (frame mw w) =
      [.glfwPollEvents,
       .glClearColor 0 0 0 1,
       .glClear GL_COLOR_BUFFER_BIT,
       .glUseProgram w.shader,
       .glUniformMatrix4fv (toGLint w.uniformModel) 1 GL_FALSE
         [f32 0.4, 0, 0, 0, 0, f32 0.4, 0, 0, 0, 0, 1, 0, 0, 0, 0, 1],
       .glBindVertexArray w.VAO,
       .glDrawArrays GL_TRIANGLES 0 3,
       .glBindVertexArray 0,
       .glUseProgram 0,
       .glfwSwapBuffers mw]
    ∧ drawCalls (newEvents w (frame mw w)) = [(GL_TRIANGLES, 0, 3)]
    ∧ GL_TRIANGLES = 4 ∧ GL_FALSE = 0
    ∧ (f32 0.4 = 13421773 / 33554432 ∧ f32 1.0 = 1 ∧ f32 0.0 = 0)
    ∧ scale (mat4 (f32 1.0)) ⟨f32 0.4, f32 0.4, f32 1.0⟩ =
        diag (f32 0.4) (f32 0.4) (f32 1.0) (f32 1.0)
    ∧ value_ptr (scale (mat4 (f32 1.0)) ⟨f32 0.4, f32 0.4, f32 1.0⟩) =
        [f32 0.4, 0, 0, 0, 0, f32 0.4, 0, 0, 0, 0, 1, 0, 0, 0, 0, 1]
    ∧ ((frame mw w).shader = w.shader ∧ (frame mw w).uniformModel = w.uniformModel ∧
        (frame mw w).VAO = w.VAO)
    ∧ ((CompileShaders d (CreateTriangle d w)).VAO = d.glGenVertexArrays ∧
        (CompileShaders d (CreateTriangle d w)).shader = d.glCreateProgram)
    ∧ (d.glfwInit ≠ 0 → d.glfwCreateWindow ≠ 0 →
        ∀ n, (∀ i, i < n → d.glfwWindowShouldClose i = 0) → d.glfwWindowShouldClose n ≠ 0 →
          ∀ fuel, n < fuel →
            ∃ w', main d fuel = some (0, w') ∧
              newEvents (loopEntry d) w' =
                (List.replicate n
                  (.glfwWindowShouldClose d.glfwCreateWindow ::
                    newEvents (loopEntry d) (frame d.glfwCreateWindow (loopEntry d)))).flatten ++
                [.glfwWindowShouldClose d.glfwCreateWindow]
              ∧ drawCalls w'.trace = List.replicate n (GL_TRIANGLES, 0, 3)) := by
  refine ⟨?_, ?_, rfl, rfl, ⟨f32_two_fifths, f32_one, f32_zero⟩, ?_, ?_, ?_, ?_, ?_⟩
  · rw [frame_newEvents]
    simp only [frameCalls, value_ptr, diag]
  · rw [frame_newEvents]
    rfl
  · rw [scale_identity, f32_one]
  · rw [scale_identity]
    simp only [value_ptr, diag]
  · rw [frame_eq]
    exact ⟨rfl, rfl, rfl⟩
  · rw [CompileShaders_eq, CreateTriangle_eq]
    exact ⟨rfl, rfl⟩
  · intro hinit hwin n h0 hn fuel hfuel
    refine ⟨_, main_of_first d hinit hwin n h0 hn fuel hfuel, ?_, drawCalls_afterLoop d _ n⟩
    rw [frame_newEvents, newEvents_append _ _ _ (afterLoop_trace _ _ _), loopCalls_eq]

/-- C7 in the run `okDriver 2`: `main` returns 0 after two frames, each with one draw call of
3 vertices of triangles. -/
theorem frame_call_trace_witness :
    (main (okDriver 2) 3).map (fun r => (r.1, drawCalls r.2.trace)) =
      some (0, [(4, 0, 3), (4, 0, 3)]) := by
  obtain ⟨w', hw, _, hd⟩ :=
    (frame_call_trace (okDriver 2) 0 World.init).2.2.2.2.2.2.2.2.2 (by decide) (by decide) 2
      (by decide) (by decide) 3 (by decide)
  rw [hw, Option.map_some', hd]
  rfl

/-- C9: when `glfwInit` and `glfwCreateWindow` succeed and the close flag is first set at query
`n`, `main` (given more than `n` loop checks) returns 0 after exactly `n` frames: after the
setup its calls are `n` times a close query followed by a frame, then the close query that is
answered with the set flag, and nothing after it; the run has `n` draw calls, `n` buffer swaps
and `n + 1` close queries.  A finished run always is of this form.  When the flag is never set,
`main` does not return for any number of loop checks. -/
theorem loop_exits_only_on_close_flag (d : Driver)
    (hinit : d.glfwInit ≠ 0) (hwin : d.glfwCreateWindow ≠ 0) :
    (∀ n, (∀ i, i < n → d.glfwWindowShouldClose i = 0) → d.glfwWindowShouldClose n ≠ 0 →
      ∀ fuel, n < fuel →
        ∃ w, main d fuel = some (0, w) ∧
          newEvents (loopEntry d) w =
            (List.replicate n
              (.glfwWindowShouldClose d.glfwCreateWindow ::
                frameCalls d.glfwCreateWindow d.glCreateProgram (loopEntry d).uniformModel
                  d.glGenVertexArrays)).flatten ++
            [.glfwWindowShouldClose d.glfwCreateWindow]
          ∧ (drawCalls w.trace).length = n
          ∧ swapCount w.trace = n
          ∧ closeQueryCount w.trace = n + 1)
    ∧ (∀ fuel r, main d fuel = some r →
        ∃ n, n < fuel ∧ (∀ i, i < n → d.glfwWindowShouldClose i = 0) ∧
          d.glfwWindowShouldClose n ≠ 0 ∧ runShape r = (0, n, n, n + 1))
    ∧ ((∀ i, d.glfwWindowShouldClose i = 0) → ∀ fuel, main d fuel = none) := by
  refine ⟨?_, ?_, ?_⟩
  · intro n h0 hn fuel hfuel
    refine ⟨_, main_of_first d hinit hwin n h0 hn fuel hfuel, ?_, ?_,
      swapCount_afterLoop d _ n, closeQueryCount_afterLoop d _ n⟩
    · rw [newEvents_append _ _ _ (afterLoop_trace _ _ _), loopCalls_eq]
      rfl
    · rw [drawCalls_afterLoop, List.length_replicate]
  · intro fuel r hr
    obtain ⟨n, h1, h2, h3, rfl⟩ := main_some d hinit hwin fuel r hr
    exact ⟨n, h1, h2, h3, runShape_afterLoop d _ n⟩
  · intro h fuel
    exact main_of_never d hinit hwin h fuel

/-- C9 in the run `okDriver 2` (flag first set at query 2): exit code 0, two draw calls, two
swaps, three close queries. -/
theorem loop_exits_only_on_close_flag_witness :
    (okDriver 2).glfwInit ≠ 0 ∧ (okDriver 2).glfwCreateWindow ≠ 0 ∧
    (main (okDriver 2) 3).map runShape = some (0, 2, 2, 3) := by
  refine ⟨by decide, by decide, ?_⟩
  obtain ⟨w, hw, _, h1, h2, h3⟩ :=
    (loop_exits_only_on_close_flag (okDriver 2) (by decide) (by decide)).1 2
      (by decide) (by decide) 3 (by decide)
  rw [hw, Option.map_some']
  simp only [runShape, h1, h2, h3]

/-- C5: when `glfwInit` and `glfwCreateWindow` succeed, then for every outcome of the shader
build `main` goes on to the frame loop (its result is that of the loop started in the world
after `CompileShaders`, with exit code 0), where `shader` holds whatever `glCreateProgram`
returned.  Every finished run returns 0 and consists of the setup followed by `n` frames, each
of which calls `glUseProgram(shader)` and `glDrawArrays(GL_TRIANGLES, 0, 3)`; a run finishes
as soon as the close flag is set.  Two drivers that answer the close queries alike give the
same exit code and the same numbers of draw calls, swaps and close queries (or both do not
finish), whatever their replies during the shader build. -/
theorem build_outcome_does_not_change_control_flow (d : Driver)
    (hinit : d.glfwInit ≠ 0) (hwin : d.glfwCreateWindow ≠ 0) :
    (∀ fuel, main d fuel =
        (frameLoop d d.glfwCreateWindow fuel 0 (loopEntry d)).map (fun w => ((0 : Int), w)))
    ∧ (loopEntry d).shader = (CompileShaders d (CreateTriangle d World.init)).shader
    ∧ (∃ pre, (loopEntry d).trace = pre ++ newEvents World.init (CompileShaders d World.init))
    ∧ (∀ fuel code w, main d fuel = some (code, w) →
        code = 0 ∧
        ∃ n, w.trace = (loopEntry d).trace ++
              ((List.replicate n
                (.glfwWindowShouldClose d.glfwCreateWindow ::
                  frameCalls d.glfwCreateWindow (loopEntry d).shader (loopEntry d).uniformModel
                    (loopEntry d).VAO)).flatten ++
              [.glfwWindowShouldClose d.glfwCreateWindow])
          ∧ programUses w.trace = (List.replicate n [(loopEntry d).shader, 0]).flatten
          ∧ drawCalls w.trace = List.replicate n (GL_TRIANGLES, 0, 3))
    ∧ (∀ n, (∀ i, i < n → d.glfwWindowShouldClose i = 0) → d.glfwWindowShouldClose n ≠ 0 →
        ∀ fuel, n < fuel → (main d fuel).map runShape = some (0, n, n, n + 1))
    ∧ (∀ e : Driver, e.glfwInit ≠ 0 → e.glfwCreateWindow ≠ 0 →
        e.glfwWindowShouldClose = d.glfwWindowShouldClose →
        ∀ fuel, (main e fuel).map runShape = (main d fuel).map runShape) := by
  have shape : ∀ (e : Driver), e.glfwInit ≠ 0 → e.glfwCreateWindow ≠ 0 → ∀ fuel,
      (main e fuel).map runShape =
        (framesRun e.glfwWindowShouldClose fuel 0).map (fun n => ((0 : Int), n, n, n + 1)) := by
    intro e he1 he2 fuel
    rw [main_eq e fuel he1 he2, Option.map_map]
    cases framesRun e.glfwWindowShouldClose fuel 0 with
    | none => simp only [Option.map_none']
    | some n =>
      simp only [Option.map_some', Function.comp_apply]
      rw [runShape_afterLoop]
  refine ⟨?_, ?_, ?_, ?_, ?_, ?_⟩
  · intro fuel
    rw [main_eq d fuel hinit hwin, frameLoop_eq, Option.map_map]
    rfl
  · rw [CompileShaders_eq]
    rfl
  · refine ⟨contextCalls d ++ createTriangleCalls d, ?_⟩
    rw [newEvents_CompileShaders]
    simp only [loopEntry, List.append_assoc]
  · intro fuel code w h
    obtain ⟨n, _, _, _, hr⟩ := main_some d hinit hwin fuel (code, w) h
    have hc : code = 0 := congrArg Prod.fst hr
    have hw : w = afterLoop d.glfwCreateWindow (loopEntry d) n := congrArg Prod.snd hr
    refine ⟨hc, n, ?_, ?_, ?_⟩
    · rw [hw, afterLoop_trace, loopCalls_eq]
    · rw [hw, programUses_afterLoop]
      rfl
    · rw [hw, drawCalls_afterLoop]
  · intro n h0 hn fuel hfuel
    rw [shape d hinit hwin, framesRun_of_first _ n fuel 0 (by simpa using h0)
      (by simpa using hn) hfuel]
    rfl
  · intro e he1 he2 hclose fuel
    rw [shape d hinit hwin, shape e he1 he2, hclose]

/-- C5 on two runs: the run whose program does not link has the same exit code and the same
numbers of draw calls, swaps and close queries as the successful run. -/
theorem build_outcome_does_not_change_control_flow_witness :
    (okDriver 2).glfwInit ≠ 0 ∧ (okDriver 2).glfwCreateWindow ≠ 0 ∧
    (main linkFailDriver 3).map runShape = (main (okDriver 2) 3).map runShape ∧
    (main (okDriver 2) 3).map runShape = some (0, 2, 2, 3) :=
  ⟨by decide, by decide,
   (build_outcome_does_not_change_control_flow (okDriver 2) (by decide) (by decide)).2.2.2.2.2
      linkFailDriver (by decide) (by decide) rfl 3,
   (build_outcome_does_not_change_control_flow (okDriver 2) (by decide) (by decide)).2.2.2.2.1
      2 (by decide) (by decide) 3 (by decide)⟩

/-- C6: `main` returns 1 when `glfwInit` returns 0 (after the report and `glfwTerminate`) and
when `glfwCreateWindow` returns null (after the hints, the report and `glfwTerminate`); in both
cases these are all its calls, so no geometry is uploaded, no shader is built and no frame
runs.  A finished run returns 1 iff one of the two failed, and 0 otherwise.  When both succeed
and the close flag is first set at query `n`, `main` returns 0, also when `glewInit` fails: its
calls are then the context setup, after `glewInit` the report, `glfwDestroyWindow` and
`glfwTerminate` exactly when `glewInit` did not return `GLEW_OK`, then `glViewport`, the calls
of `CreateTriangle`, the calls of `CompileShaders` and the loop with `n` frames. -/
theorem main_return_value (d : Driver) :
    (d.glfwInit = 0 → ∀ fuel, main d fuel =
        some (1, { World.init with
          trace := [.glfwInit, .printf "GLFW initialization failed" [], .glfwTerminate] }))
    ∧ (d.glfwInit ≠ 0 → d.glfwCreateWindow = 0 → ∀ fuel, main d fuel =
        some (1, { World.init with
          trace := [.glfwInit,
                    .glfwWindowHint GLFW_CONTEXT_VERSION_MAJOR 3,
                    .glfwWindowHint GLFW_CONTEXT_VERSION_MINOR 3,
                    .glfwWindowHint GLFW_OPENGL_PROFILE GLFW_OPENGL_CORE_PROFILE,
                    .glfwWindowHint GLFW_OPENGL_FORWARD_COMPAT GL_TRUE,
                    .glfwCreateWindow 800 600 "Test Window" 0 0,
                    .printf "GLFW window creation failed!" [],
                    .glfwTerminate] }))
    ∧ (∀ fuel code w, main d fuel = some (code, w) →
        (code = 1 ↔ (d.glfwInit = 0 ∨ d.glfwCreateWindow = 0)) ∧
        (code = 0 ↔ (d.glfwInit ≠ 0 ∧ d.glfwCreateWindow ≠ 0)))
    ∧ (d.glfwInit ≠ 0 → d.glfwCreateWindow ≠ 0 →
        ∀ n, (∀ i, i < n → d.glfwWindowShouldClose i = 0) → d.glfwWindowShouldClose n ≠ 0 →
          ∀ fuel, n < fuel →
            ∃ w, main d fuel = some (0, w) ∧
              w.trace =
                [.glfwInit,
                 .glfwWindowHint GLFW_CONTEXT_VERSION_MAJOR 3,
                 .glfwWindowHint GLFW_CONTEXT_VERSION_MINOR 3,
                 .glfwWindowHint GLFW_OPENGL_PROFILE GLFW_OPENGL_CORE_PROFILE,
                 .glfwWindowHint GLFW_OPENGL_FORWARD_COMPAT GL_TRUE,
                 .glfwCreateWindow 800 600 "Test Window" 0 0,
                 .glfwGetFramebufferSize d.glfwCreateWindow,
                 .glfwMakeContextCurrent d.glfwCreateWindow,
                 .glewInit] ++
                ((if d.glewInit = GLEW_OK then []
                  else [.printf "GLEW initialization failed!" [],
                        .glfwDestroyWindow d.glfwCreateWindow,
                        .glfwTerminate]) ++
                ([.glViewport 0 0 d.bufferWidth d.bufferHeight] ++
                (newEvents World.init (CreateTriangle d World.init) ++
                (newEvents World.init (CompileShaders d World.init) ++
                ((List.replicate n
                  (.glfwWindowShouldClose d.glfwCreateWindow ::
                    frameCalls d.glfwCreateWindow d.glCreateProgram (loopEntry d).uniformModel
                      d.glGenVertexArrays)).flatten ++
                [.glfwWindowShouldClose d.glfwCreateWindow])))))) := by
  refine ⟨main_glfwInit_fails d, main_no_window d, ?_, ?_⟩
  · intro fuel code w h
    by_cases h1 : d.glfwInit = 0
    · rw [main_glfwInit_fails d h1] at h
      have hc : code = 1 := (congrArg Prod.fst (Option.some.inj h)).symm
      subst hc
      simp [h1]
    · by_cases h2 : d.glfwCreateWindow = 0
      · rw [main_no_window d h1 h2] at h
        have hc : code = 1 := (congrArg Prod.fst (Option.some.inj h)).symm
        subst hc
        simp [h2]
      · obtain ⟨n, _, _, _, hr⟩ := main_some d h1 h2 fuel (code, w) h
        have hc : code = 0 := congrArg Prod.fst hr
        subst hc
        simp [h1, h2]
  · intro hinit hwin n h0 hn fuel hfuel
    refine ⟨_, main_of_first d hinit hwin n h0 hn fuel hfuel, ?_⟩
    rw [afterLoop_trace, loopCalls_eq, newEvents_CompileShaders,
      newEvents_append _ _ (createTriangleCalls d) (by rw [CreateTriangle_eq])]
    simp only [loopEntry, contextCalls, List.append_assoc]

/-- C6 in the run `glewFailDriver`, where `glewInit` fails and the close flag is set at
query 2: `main` still returns 0. -/
theorem main_return_value_witness :
    glewFailDriver.glewInit ≠ GLEW_OK ∧ (main glewFailDriver 3).map Prod.fst = some 0 := by
  refine ⟨by decide, ?_⟩
  obtain ⟨w, hw, _⟩ :=
    (main_return_value glewFailDriver).2.2.2 (by decide) (by decide) 2
      (by decide) (by decide) 3 (by decide)
  rw [hw]
  rfl

/-- C10: conversion to `GLuint` and back to `GLint` returns every signed 32-bit value, and -1
is stored as 4294967295.  So when the build succeeds and `glGetUniformLocation` returns the
signed 32-bit value `L`, every frame of `main` passes `L` to `glUniformMatrix4fv`; when the
location is never resolved (`glCreateProgram`, the link or the validation fails) every frame
passes 0. -/
theorem uniform_location_survives_unsigned_global (d : Driver)
    (hinit : d.glfwInit ≠ 0) (hwin : d.glfwCreateWindow ≠ 0)
    (n : Nat) (h0 : ∀ i, i < n → d.glfwWindowShouldClose i = 0)
    (hn : d.glfwWindowShouldClose n ≠ 0) (fuel : Nat) (hfuel : n < fuel) :
    (∀ L : Int, -2 ^ 31 ≤ L → L < 2 ^ 31 → toGLint (toGLuint L) = L)
    ∧ toGLuint (-1) = 4294967295
    ∧ (d.glCreateProgram ≠ 0 → d.linkStatus ≠ 0 → d.validateStatus ≠ 0 →
        -2 ^ 31 ≤ d.glGetUniformLocation → d.glGetUniformLocation < 2 ^ 31 →
        ∃ w, main d fuel = some (0, w) ∧
          w.uniformModel = toGLuint d.glGetUniformLocation ∧
          uploadLocations w.trace = List.replicate n d.glGetUniformLocation)
    ∧ (d.glCreateProgram = 0 ∨ d.linkStatus = 0 ∨ d.validateStatus = 0 →
        ∃ w, main d fuel = some (0, w) ∧
          w.uniformModel = 0 ∧
          uploadLocations w.trace = List.replicate n 0) := by
  refine ⟨toGLint_toGLuint, by decide, ?_, ?_⟩
  · intro h1 h2 h3 hlo hhi
    have hum : (loopEntry d).uniformModel = toGLuint d.glGetUniformLocation := by
      simp [loopEntry, h1, h2, h3]
    refine ⟨_, main_of_first d hinit hwin n h0 hn fuel hfuel, hum, ?_⟩
    rw [uploadLocations_afterLoop, hum, toGLint_toGLuint _ hlo hhi]
  · intro h
    have hum : (loopEntry d).uniformModel = 0 := by
      simp [loopEntry, h]
    refine ⟨_, main_of_first d hinit hwin n h0 hn fuel hfuel, hum, ?_⟩
    rw [uploadLocations_afterLoop, hum]
    rfl

/-- C10 in the run `noUniformDriver`, where `glGetUniformLocation` returns -1: the global
holds 4294967295 and both frames pass -1. -/
theorem uniform_location_survives_unsigned_global_witness :
    (main noUniformDriver 3).map (fun r => (r.2.uniformModel, uploadLocations r.2.trace)) =
      some (4294967295, [-1, -1]) := by
  obtain ⟨w, hw, hu, hl⟩ :=
    (uniform_location_survives_unsigned_global noUniformDriver (by decide) (by decide) 2
      (by decide) (by decide) 3 (by decide)).2.2.1
      (by decide) (by decide) (by decide) (by decide) (by decide)
  rw [hw, Option.map_some', hu, hl]
  decide

end OpenGLTutorial
